import Mathlib

/-!
Verification of the SPINE training driver and its object-matching
post-processor against its natural-language specification.

The development shallowly embeds the relevant parts of
`src/spine/post/evaluation/match.py` and `src/mlreco/manager.py`:
Python dictionaries become association lists, NumPy arrays become
`List Rat`, machine floats become rationals (the properties at stake are
about ordering, sentinels and counting, not rounding), and Python
exceptions become explicit error values threaded through the state.
-/

/-- Python runtime errors raised by the embedded code, together with a
distinguished marker for a loop that provably never terminates. -/
inductive PyErr
  | nameError (n : String)
  | attributeError (s : String)
  | runtimeError (s : String)
  | valueError (s : String)
  | nonTermination
  deriving DecidableEq

/-! ## Embedding of `MatchProcessor.generate_matches` (match.py, lines 158-207) -/

/-- A matchable object (fragment/particle/interaction) with the mutable
match bookkeeping fields written by the matcher.  The source field
`match` is a Lean keyword and is embedded as `match_ids`. -/
structure MatchObj where
  oid : Nat
  is_matched : Bool
  match_ids : List Nat
  match_overlap : List Rat
  deriving DecidableEq

/-- `np.where(row)[0]`: the indices of the `true` entries, in increasing
order. -/
def npWhere (row : List Bool) : List Nat :=
  (List.range row.length).filter (fun j => row.getD j false)

/-- Insert index `i` into an index list already sorted by value, after
every index whose value is less than or equal to `xs[i]` (stable
insertion). -/
def insertIdx (xs : List Rat) (i : Nat) : List Nat → List Nat
  | [] => [i]
  | j :: rest =>
      if xs.getD j 0 ≤ xs.getD i 0 then j :: insertIdx xs i rest
      else i :: j :: rest

/-- `np.argsort(xs)`: ascending stable argsort.  NumPy's default sort
runs as an insertion sort (which is stable) on the small arrays this
code handles, so the stable model is exact there. -/
def argsortAsc (xs : List Rat) : List Nat :=
  (List.range xs.length).foldl (fun acc i => insertIdx xs i acc) []

/-- NumPy fancy indexing `xs[idx]`. -/
def fancyIndex (xs : List α) (idx : List Nat) (d : α) : List α :=
  idx.map (fun j => xs.getD j d)

/-- Mark a source object unmatched, as the no-valid-target branch of
`generate_matches` does (`is_matched = False`, empty `match` and
`match_overlap` arrays). -/
def markUnmatched (s : MatchObj) : MatchObj :=
  { s with is_matched := false, match_ids := [], match_overlap := [] }

deriving instance DecidableEq for Except

/-- Result of a call to `generate_matches`: the state of the source
objects after the call (they are mutated in place in Python, so they
retain their updates even when an exception aborts the call), and the
outcome, either the returned `(pairs, overlaps)` or the raised error. -/
structure GMResult where
  sources : List MatchObj
  outcome : Except PyErr (List (MatchObj × Option MatchObj) × List Rat)

/-- The loop of `generate_matches` over the enumerated source objects.
`i` is the running row index, `pairs` and `overlaps` the accumulators. -/
def gmLoop (ovl_matrix : List (List Rat)) (ovl_valid : List (List Bool))
    (i : Nat) (srcs : List MatchObj)
    (pairs : List (MatchObj × Option MatchObj)) (overlaps : List Rat) :
    GMResult :=
  match srcs with
  | [] => { sources := [], outcome := .ok (pairs, overlaps) }
  | s :: rest =>
      let match_idxs := npWhere (ovl_valid.getD i [])
      if match_idxs.isEmpty then
        -- No valid target: fill dummy values and record a (source, None)
        -- pair with sentinel overlap -1.
        let s' := markUnmatched s
        let r := gmLoop ovl_matrix ovl_valid (i + 1) rest
            (pairs ++ [(s', none)]) (overlaps ++ [-1])
        { r with sources := s' :: r.sources }
      else
        -- `overlaps = ovl_matrix[i, match_idxs]` rebinds the accumulator
        -- list to a per-row NumPy array; the rebound value is only read
        -- again after the NameError below, so it never flows onward.
        let overlapsRow := fancyIndex (ovl_matrix.getD i []) match_idxs 0
        -- `perm = np.argsort(overlaps)[::-1]`: ascending argsort, then a
        -- full reversal (which also reverses the order of tied entries).
        let perm := (argsortAsc overlapsRow).reverse
        let s' := { s with
            is_matched := true,
            match_ids := fancyIndex match_idxs perm 0,
            match_overlap := fancyIndex overlapsRow perm 0 }
        -- `pairs.append((s, truth_objs[best_idx]))`: the name `truth_objs`
        -- is unbound in `generate_matches` (the parameter is named
        -- `target_objs`), so the lookup raises a NameError after the
        -- source object has already been mutated.
        { sources := s' :: rest, outcome := .error (.nameError "truth_objs") }

/-- `MatchProcessor.generate_matches`: resolve the matches of each source
object from the overlap matrix and the validity mask. -/
def generate_matches (source_objs : List MatchObj)
    (ovl_matrix : List (List Rat)) (ovl_valid : List (List Bool)) :
    GMResult :=
  gmLoop ovl_matrix ovl_valid 0 source_objs [] []

/-! ### Helper lemmas about the matcher -/

theorem npWhere_of_all_false {row : List Bool}
    (h : ∀ b ∈ row, b = false) : npWhere row = [] := by
  unfold npWhere
  apply List.filter_eq_nil_iff.mpr
  intro j _
  simp only [Bool.not_eq_true]
  rcases hj : row[j]? with _ | b
  · simp [List.getD_eq_getElem?_getD, hj]
  · have hb := h b (List.getElem?_mem hj)
    simp [List.getD_eq_getElem?_getD, hj, hb]

theorem gmLoop_all_false (ovl_matrix : List (List Rat))
    (ovl_valid : List (List Bool))
    (h : ∀ row ∈ ovl_valid, ∀ b ∈ row, b = false) :
    ∀ (srcs : List MatchObj) (i : Nat)
      (pairs : List (MatchObj × Option MatchObj)) (overlaps : List Rat),
      gmLoop ovl_matrix ovl_valid i srcs pairs overlaps =
        { sources := srcs.map markUnmatched,
          outcome := .ok
            (pairs ++ srcs.map (fun s => (markUnmatched s, none)),
             overlaps ++ srcs.map (fun _ => (-1 : Rat))) } := by
  have hrow : ∀ i : Nat, npWhere (ovl_valid.getD i []) = [] := by
    intro i
    apply npWhere_of_all_false
    intro b hb
    rcases hi : ovl_valid[i]? with _ | row
    · simp [List.getD_eq_getElem?_getD, hi] at hb
    · exact h row (List.getElem?_mem hi) b (by
        simpa [List.getD_eq_getElem?_getD, hi] using hb)
  intro srcs
  induction srcs with
  | nil => intro i pairs overlaps; simp [gmLoop]
  | cons s rest ih =>
      intro i pairs overlaps
      simp only [gmLoop, hrow i, List.isEmpty_nil, if_pos rfl, ih]
      simp [List.append_assoc]

/-! ### Claims C1 and C2 -/

/-- **C1** (code_bug evidence): on a source whose two valid targets have
equal overlap `1/2`, the claim asks for a stored match list that keeps
the original target order (`[0, 1]`) and for the best-match pair to be
exposed.  The code instead stores the tied targets in reversed order
(`np.argsort(overlaps)[::-1]` reverses ties) and then raises a
`NameError` on the unbound name `truth_objs` before any pair is
emitted. -/
theorem generate_matches_tied_overlap_bug :
    (generate_matches [⟨0, false, [], []⟩]
        [[mkRat 1 2, mkRat 1 2]] [[true, true]]).sources =
      [{ oid := 0, is_matched := true, match_ids := [1, 0],
         match_overlap := [mkRat 1 2, mkRat 1 2] }] ∧
    (generate_matches [⟨0, false, [], []⟩]
        [[mkRat 1 2, mkRat 1 2]] [[true, true]]).outcome =
      .error (.nameError "truth_objs") :=
  ⟨by decide, by decide⟩

/-- **C2**: when the validity mask contains no valid target for any
source, every source object ends with `is_matched = false` and empty
`match`/`match_overlap` lists, and the call returns one `(source, None)`
pair per source whose corresponding entry in the returned overlap list
is the sentinel `-1`. -/
theorem generate_matches_no_valid_targets
    (source_objs : List MatchObj) (ovl_matrix : List (List Rat))
    (ovl_valid : List (List Bool))
    (h : ∀ row ∈ ovl_valid, ∀ b ∈ row, b = false) :
    (generate_matches source_objs ovl_matrix ovl_valid).sources =
      source_objs.map markUnmatched ∧
    (generate_matches source_objs ovl_matrix ovl_valid).outcome =
      .ok (source_objs.map (fun s => (markUnmatched s, none)),
           source_objs.map (fun _ => (-1 : Rat))) ∧
    ∀ s : MatchObj, (markUnmatched s).is_matched = false ∧
      (markUnmatched s).match_ids = [] ∧
      (markUnmatched s).match_overlap = [] := by
  have hg := gmLoop_all_false ovl_matrix ovl_valid h source_objs 0 [] []
  unfold generate_matches
  rw [hg]
  exact ⟨rfl, by simp, fun s => ⟨rfl, rfl, rfl⟩⟩

/-- Concrete instance of `generate_matches_no_valid_targets`: one source,
one target, overlap below threshold everywhere. -/
theorem generate_matches_no_valid_targets_witness :
    (generate_matches [⟨0, true, [5], [1]⟩]
        [[mkRat 1 2]] [[false]]).outcome =
      .ok ([({ oid := 0, is_matched := false, match_ids := [],
               match_overlap := [] }, none)], [-1]) := by
  have h := generate_matches_no_valid_targets [⟨0, true, [5], [1]⟩]
      [[mkRat 1 2]] [[false]] (by decide)
  simpa [markUnmatched] using h.2.1

/-! ## Python string primitives

Structural (fuel-free where possible) implementations of the Python
string operations used by `manager.py`, over character lists so that
every concrete instance evaluates by `decide`/`rfl`. -/

/-- Drop `pat` from the front of `s` when it is a prefix, else `none`. -/
def dropPre : List Char → List Char → Option (List Char)
  | [], s => some s
  | _ :: _, [] => none
  | p :: ps, c :: cs => if p == c then dropPre ps cs else none

/-- Python `pat in s` on character lists. -/
def containsSub (s pat : List Char) : Bool :=
  match s with
  | [] => pat.isEmpty
  | _ :: rest => (dropPre pat s).isSome || containsSub rest pat

/-- Python `pat in s` on strings. -/
def strContains (s pat : String) : Bool := containsSub s.data pat.data

/-- Python `s.replace(pat, rep)` on character lists, with a fuel argument
(`s.length` always suffices for a non-empty `pat`): every occurrence of
`pat` is replaced, scanning left to right without overlap. -/
def replaceAux (pat rep : List Char) : Nat → List Char → List Char
  | 0, s => s
  | _ + 1, [] => []
  | fuel + 1, c :: cs =>
      if pat.isEmpty then c :: cs
      else match dropPre pat (c :: cs) with
        | some rem => rep ++ replaceAux pat rep fuel rem
        | none => c :: replaceAux pat rep fuel cs

/-- Python `s.replace(pat, rep)` on strings (`pat` non-empty wherever the
embedded code calls it). -/
def pyReplace (s pat rep : String) : String :=
  ⟨replaceAux pat.data rep.data s.data.length s.data⟩

/-! ## Embedding of the Checkpoint Store (`manager.py`)

`SPICEManager.save_state` (lines 766-788) and the per-file body of
`SPICEManager.load_weights` (lines 423-491).  Parameter tensors are
abstracted as integers, dictionaries as association lists. -/

/-- A model or checkpoint state dictionary: parameter name to value. -/
abbrev StateDict := List (String × Int)

/-- `sd[k]` / `k in sd.keys()` on a state dictionary. -/
def lookupSD (sd : StateDict) (k : String) : Option Int :=
  (sd.find? (fun p => p.1 == k)).map (·.2)

/-- `k in sd.keys()`. -/
def containsKey (sd : StateDict) (k : String) : Bool := (lookupSD sd k).isSome

/-- A checkpoint record: the three fields written by `save_state`. -/
structure Checkpoint where
  global_step : Nat
  state_dict : StateDict
  optimizer : Int
  deriving DecidableEq

/-- The live state that weight loading can touch: the model parameters,
the starting iteration counter and the (opaque) optimizer state. -/
structure LoadState where
  model : StateDict
  start_iteration : Nat
  optim : Int
  deriving DecidableEq

/-- The fatal error of the loading loop: the aggregated manifest of
`(live parameter name, missing checkpoint key)` pairs. -/
inductive LoadError
  | missingParams (missing : List (String × String))
  deriving DecidableEq

/-- Outcome of loading one weight file: the resulting live state, the
warned-about unexpected checkpoint keys, and the raised error if any. -/
structure LoadOutcome where
  state : LoadState
  unexpected : List String
  error : Option LoadError
  deriving DecidableEq

/-- `{k.replace('module.', ''): v, ...}` — the distributed-wrapper name
strip applied when the live model is not distributed (line 441). -/
def stripDDP (distributed : Bool) (sd : StateDict) : StateDict :=
  if distributed then sd
  else sd.map (fun p => (pyReplace p.1 "module." "", p.2))

/-- `model.load_state_dict(sd, strict=False)`: every live parameter whose
name appears in `sd` takes the stored value, the others keep theirs. -/
def load_state_dict (model : StateDict) (sd : StateDict) : StateDict :=
  model.map (fun p => (p.1, (lookupSD sd p.1).getD p.2))

/-- `bad_keys.unexpected_keys`: keys of `sd` absent from the live model. -/
def unexpectedKeys (model : StateDict) (sd : StateDict) : List String :=
  sd.filterMap (fun p => if containsKey model p.1 then none else some p.1)

/-- The checkpoint key a live parameter is looked up under: the name
itself for the top-level model, the `.module. -> .model_name.`
substitution for a sub-module (lines 447 and 456-457). -/
def remapKey (topLevel : Bool) (modName storeName n : String) : String :=
  if topLevel then n
  else pyReplace n ("." ++ modName ++ ".") ("." ++ storeName ++ ".")

/-- The live parameter names a weight file must provide: the whole schema
for the top-level model, the names containing the module name for a
sub-module (lines 448 and 454-455). -/
def requiredNames (topLevel : Bool) (modName : String)
    (schema : List String) : List String :=
  if topLevel then schema else schema.filter (fun n => strContains n modName)

/-- The dictionary the presence check reads: the stripped dictionary for
the top-level model (line 449), the raw checkpoint dictionary for a
sub-module (line 458, which consults `checkpoint['state_dict']`). -/
def loadCoverage (topLevel : Bool) (distributed : Bool)
    (ckpt : Checkpoint) : StateDict :=
  if topLevel then stripDDP distributed ckpt.state_dict else ckpt.state_dict

/-- The aggregated manifest of missing `(name, key)` pairs (lines
446-462): every required name whose remapped key the coverage dictionary
does not provide. -/
def missingManifest (topLevel : Bool) (modName storeName : String)
    (schema : List String) (coverage : StateDict) : List (String × String) :=
  (requiredNames topLevel modName schema).filterMap (fun n =>
    let key := remapKey topLevel modName storeName n
    if containsKey coverage key then none else some (n, key))

/-- The remapped sub-module slice loaded in place of the full dictionary
(lines 452-459); lookups read the unstripped checkpoint, as the source
does. -/
def submoduleSlice (modName storeName : String) (model : StateDict)
    (raw : StateDict) : StateDict :=
  model.filterMap (fun p =>
    if strContains p.1 modName then
      (lookupSD raw (remapKey false modName storeName p.1)).map
        (fun v => (p.1, v))
    else none)

/-- The loading-loop body of `SPICEManager.load_weights` for one already
read checkpoint (lines 436-491).  `modName` is the module being loaded,
`storeName` the `model_name` alias under which its weights were stored.
The missing-parameter ValueError is raised before `load_state_dict`
runs, so on failure the live state is returned untouched. -/
def load_weights_file (modelTopName : String)
    (distributed train restore_optimizer : Bool)
    (modName storeName : String) (ckpt : Checkpoint) (st : LoadState) :
    LoadOutcome :=
  let topLevel := modName == modelTopName
  let stripped := stripDDP distributed ckpt.state_dict
  let sd := if topLevel then stripped
            else submoduleSlice modName storeName st.model ckpt.state_dict
  let missing := missingManifest topLevel modName storeName
      (st.model.map Prod.fst) (loadCoverage topLevel distributed ckpt)
  if missing.isEmpty then
    let model' := load_state_dict st.model sd
    let optim' := if train && topLevel && restore_optimizer
                  then ckpt.optimizer else st.optim
    let start' := if topLevel then ckpt.global_step + 1
                  else st.start_iteration
    { state := { model := model', start_iteration := start', optim := optim' },
      unexpected := unexpectedKeys st.model sd,
      error := none }
  else
    { state := st, unexpected := [], error := some (.missingParams missing) }

/-- `SPICEManager.save_state`: the checkpoint written at `iteration`
(under the file name `{weight_prefix}-{iteration}.ckpt`). -/
def save_state (iteration : Nat) (st : LoadState) : Checkpoint :=
  { global_step := iteration, state_dict := st.model, optimizer := st.optim }

/-- Whether a configured weight path proceeds to loading, is skipped, or
is fatal: the existence check at the top of the loading loop (lines
423-431).  `isFile` is `os.path.isfile(model_path)` and `globMatches`
is `glob.glob(model_path)`. -/
inductive WeightFileAction
  | load
  | skip
  deriving DecidableEq

/-- The weight-file existence check (lines 423-431): an existing file is
loaded; otherwise, outside of training mode, a glob expansion with at
least one hit is skipped; every other case raises a ValueError. -/
def check_weight_file (train isFile : Bool) (globMatches : List String) :
    Except String WeightFileAction :=
  if isFile then .ok .load
  else if !train && !globMatches.isEmpty then .ok .skip
  else .error "Weight file not found for module"

/-! ## Embedding of the Distributed Aggregator merge (`SPICEManager.write`) -/

/-- A value gathered from the per-process dictionaries in
`SPICEManager.write` (lines 808-832): a Python scalar, a NumPy array, or
a Python list.  The merge rule never looks at list/array elements, so
their element type is abstracted to `Rat`. -/
inductive GVal
  | scalar (q : Rat)
  | arr (xs : List Rat)
  | pylist (xs : List Rat)
  deriving DecidableEq

def scalarOf : GVal → Rat
  | .scalar q => q
  | _ => 0

def arrOf : GVal → List Rat
  | .arr xs => xs
  | _ => []

def pylistOf : GVal → List Rat
  | .pylist xs => xs
  | _ => []

/-- The per-key merge of the gathered value list (lines 812-819 and
825-832): dispatch on the runtime type of the first gathered value; a
scalar merges by `np.mean`, or by `np.sum` when the key name contains
the substring `count`; an array merges by `np.concatenate` (first
axis); a list merges by `extend` in process-rank order.  Any other
leading value leaves the key unmerged. -/
def mergeGathered (k : String) (vs : List GVal) : Option GVal :=
  match vs.head? with
  | some (.scalar _) =>
      let qs := vs.map scalarOf
      some (.scalar (if strContains k "count" then qs.sum
                     else qs.sum / (qs.length : Rat)))
  | some (.arr _) => some (.arr (vs.map arrOf).flatten)
  | some (.pylist _) => some (.pylist (vs.map pylistOf).flatten)
  | none => none

/-! ## Embedding of the run-loop iteration accounting
(`SPICEManager.process_io` lines 256-264 and `SPICEManager.run` lines
529-573). -/

/-- `iter_per_epoch = len(self.loader) / self.world_size` (Python float
division, modelled on the rationals). -/
def iter_per_epoch (loaderLen worldSize : Nat) : Rat :=
  (loaderLen : Rat) / (worldSize : Rat)

/-- The epoch count `process_io` derives when `iterations` is configured
(lines 258-262).  `self.iterations` itself is left untouched, negative
values included. -/
def epochsFromIterations (iterations : Int) (loaderLen worldSize : Nat) :
    Rat :=
  if iterations < 0 then 1
  else (iterations : Rat) / iter_per_epoch loaderLen worldSize

/-- `num_epochs = int(np.ceil(self.epochs - iteration / iter_per_epoch))`
(line 536), with `iteration` the starting iteration. -/
def runNumEpochs (epochs : Rat) (startIter loaderLen worldSize : Nat) :
    Int :=
  Int.ceil (epochs - (startIter : Rat) / iter_per_epoch loaderLen worldSize)

/-- The loop-body executions of epoch `e`:
`range(min(self.iterations - e*len(self.loader), len(self.loader)))`,
where `range` of a negative number is empty (line 542-544). -/
def runStepsInEpoch (iterations : Int) (loaderLen : Nat) (e : Nat) : Nat :=
  (min (iterations - (e : Int) * (loaderLen : Int)) (loaderLen : Int)).toNat

/-- Total number of loop-body executions of `SPICEManager.run`. -/
def runTotalSteps (iterations : Int) (epochs : Rat)
    (loaderLen worldSize startIter : Nat) : Nat :=
  (List.range (runNumEpochs epochs startIter loaderLen worldSize).toNat).foldl
    (fun acc e => acc + runStepsInEpoch iterations loaderLen e) 0

/-! ## Embedding of the checkpoint cadence test (`SPICEManager.run`,
line 555, with the default `checkpoint_step = -1` from `process_main`). -/

/-- Python integer modulo: remainder of floored division, carrying the
sign of the divisor.  (Python raises on a zero divisor; the embedded
call sites never pass zero.) -/
def pymod (a b : Int) : Int := a - b * Int.floor ((a : Rat) / (b : Rat))

/-- `save_step = ((iteration + 1) % self.checkpoint_step) == 0`. -/
def save_step (checkpoint_step : Int) (iteration : Nat) : Bool :=
  pymod ((iteration : Int) + 1) checkpoint_step == 0

/-- The guard on the checkpoint write (line 556):
`if self.train and save_step and self.main_process`. -/
def savesCheckpoint (train mainProcess : Bool) (checkpoint_step : Int)
    (iteration : Nat) : Bool :=
  train && save_step checkpoint_step iteration && mainProcess

/-! ## Embedding of the output filter/normalizer of `SPICEManager.step`
(lines 697-742) and the keep/ignore exclusivity check of
`process_model` (lines 233-236). -/

/-- A runtime value held in the forward/loss result dictionary. -/
inductive Val
  | scalar (q : Rat)
  | tensor (data : List Rat)
  | tensorBatch (data : List Rat)
  | indexBatch (data : List Rat)
  | edgeIndexBatch (data : List Rat)
  | pyList (elems : List Val)
  | npArray (data : List Rat)

/-- `np.isscalar(value)`. -/
def npIsScalar : Val → Bool
  | .scalar _ => true
  | _ => false

/-- `isinstance(value, torch.Tensor) and value.numel() == 1`. -/
def isScalarTensor : Val → Bool
  | .tensor data => data.length == 1
  | _ => false

/-- `.item()` on a one-element tensor. -/
def tensorItem : Val → Val
  | .tensor data => .scalar (data.headD 0)
  | v => v

/-- `isinstance(value, (TensorBatch, IndexBatch, EdgeIndexBatch))`. -/
def isBatchContainer : Val → Bool
  | .tensorBatch _ => true
  | .indexBatch _ => true
  | .edgeIndexBatch _ => true
  | _ => false

/-- `.to_numpy()`: defined on the batch containers, an AttributeError on
anything else. -/
def toNumpyMember : Val → Except PyErr Val
  | .tensorBatch d => .ok (.npArray d)
  | .indexBatch d => .ok (.npArray d)
  | .edgeIndexBatch d => .ok (.npArray d)
  | _ => .error (.attributeError "to_numpy")

/-- `isinstance(value, list) and len(value) and isinstance(value[0],
TensorBatch)`: only a NON-empty list whose first element is a
TensorBatch passes (an empty list fails the `len(value)` test). -/
def isTBHeadedList : Val → Bool
  | .pyList (v :: _) => match v with
      | .tensorBatch _ => true
      | _ => false
  | _ => false

/-- `[v.to_numpy() for v in value]`. -/
def castList : Val → Except PyErr Val
  | .pyList elems => (elems.mapM toNumpyMember).map .pyList
  | v => .ok v

/-- The numpy-cast dispatch of `SPICEManager.step` (lines 722-740):
scalar passthrough, one-element tensor to plain scalar, batch container
to array, non-empty TensorBatch list to array list, everything else a
fatal `Cannot cast output` ValueError. -/
def castOutput (key : String) (value : Val) : Except PyErr Val :=
  if npIsScalar value then .ok value
  else if isScalarTensor value then .ok (tensorItem value)
  else if isBatchContainer value then toNumpyMember value
  else if isTBHeadedList value then castList value
  else .error (.valueError ("Cannot cast output " ++ key ++ " to numpy"))

/-- A CPython dictionary entry table: a deleted entry leaves a dummy slot
(`none`); a re-inserted key appends at the end. -/
abbrev PyDict := List (Option (String × Val))

/-- The number of live entries. -/
def dictUsed (d : PyDict) : Nat := (d.filterMap id).length

/-- `d.pop(k)`: blank the slot holding `k` (keys are unique in a dict). -/
def dictPop (d : PyDict) (k : String) : PyDict :=
  d.map (fun slot => match slot with
    | some (k', v) => if k' == k then none else some (k', v)
    | none => none)

/-- `d[k] = v`: overwrite the live slot when the key is present, else
append a new entry at the end of the table. -/
def dictSet (d : PyDict) (k : String) (v : Val) : PyDict :=
  if d.any (fun slot => match slot with
      | some (k', _) => k' == k
      | none => false) then
    d.map (fun slot => match slot with
      | some (k', v') => if k' == k then some (k', v) else some (k', v')
      | none => none)
  else d ++ [some (k, v)]

/-- Advance a dictionary iterator from table position `pos`: the first
live entry at `pos` or later and the position after it. -/
def dictNextAux : List (Option (String × Val)) → Nat →
    Option ((String × Val) × Nat)
  | [], _ => none
  | none :: rest, pos => dictNextAux rest (pos + 1)
  | some e :: _, pos => some (e, pos + 1)

def dictNext (d : PyDict) (pos : Nat) : Option ((String × Val) × Nat) :=
  dictNextAux (d.drop pos) pos

/-- Python truthiness of an optional key list: `None` and `[]` are
falsy. -/
def truthyList : Option (List String) → Bool
  | none => false
  | some l => !l.isEmpty

/-- The filter test of lines 717-718:
`(self.output_keys and key not in self.output_keys) or
 (self.ignore_keys and key in self.ignore_keys)`. -/
def popCond (keep ignore : Option (List String)) (key : String) : Bool :=
  (truthyList keep && !((keep.getD []).contains key)) ||
  (truthyList ignore && (ignore.getD []).contains key)

/-- The `for key, value in result.items()` loop of `SPICEManager.step`
(lines 715-740) under CPython dictionary-iterator semantics: the
iterator records the entry count at creation (`iterUsed`) and every
advance raises a RuntimeError if the count has changed; a popped entry
leaves a dummy that the iterator skips; the numpy-cast assignment
`result[key] = ...` re-inserts a just-popped key at the end of the
table, where the iterator will visit it again.  `fuel` bounds the
number of iterator advances and returns the distinguished
`nonTermination` marker when exhausted. -/
def stepFilterLoop (keep ignore : Option (List String)) (toNumpy : Bool) :
    Nat → PyDict → Nat → Nat → Except PyErr PyDict
  | 0, _, _, _ => .error .nonTermination
  | fuel + 1, d, pos, iterUsed =>
      if iterUsed != dictUsed d then
        .error (.runtimeError "dictionary changed size during iteration")
      else
        match dictNext d pos with
        | none => .ok d
        | some ((key, value), pos') =>
            let d₁ := if popCond keep ignore key then dictPop d key else d
            if toNumpy then
              match castOutput key value with
              | .error e => .error e
              | .ok v' => stepFilterLoop keep ignore toNumpy fuel
                  (dictSet d₁ key v') pos' iterUsed
            else
              stepFilterLoop keep ignore toNumpy fuel d₁ pos' iterUsed

/-- The whole filtering/normalization pass over a result dictionary. -/
def stepFilter (keep ignore : Option (List String)) (toNumpy : Bool)
    (result : PyDict) (fuel : Nat) : Except PyErr PyDict :=
  stepFilterLoop keep ignore toNumpy fuel result 0 (dictUsed result)

/-- The mutual-exclusivity assertion of `process_model` (lines 233-236):
`assert not (keep_output and ignore_keys)`, with Python truthiness. -/
def process_model_output_keys (keep ignore : Option (List String)) :
    Except String Unit :=
  if truthyList keep && truthyList ignore then
    .error "Should not specify keep_output and ignore_keys together."
  else .ok ()

/-! ### Claims C6, C7, C8, C9, C10 -/

/-- **C6** counterexample: the claim says that in inference mode a glob
pattern expanding to zero files is tolerated (the weight set skipped
without error).  The code raises the ValueError in exactly that case:
the skip branch requires a NON-empty glob expansion. -/
theorem check_weight_file_glob_zero_counterexample :
    check_weight_file false false [] =
      .error "Weight file not found for module" ∧
    ¬ check_weight_file false false [] = .ok WeightFileAction.skip :=
  ⟨rfl, by decide⟩

/-- **C6 amended**: for a configured path that is not an existing file,
training mode always fails; in inference mode the weight set is skipped
exactly when the glob expansion matches at least one file, so an
expansion with zero matches (a literal missing path included) is
fatal. -/
theorem check_weight_file_missing_semantics (globMatches : List String) :
    check_weight_file true false globMatches =
      .error "Weight file not found for module" ∧
    (check_weight_file false false globMatches =
        .ok WeightFileAction.skip ↔ globMatches ≠ []) ∧
    check_weight_file false false [] =
      .error "Weight file not found for module" := by
  refine ⟨rfl, ?_, rfl⟩
  cases globMatches <;> simp [check_weight_file]

/-- **C7** (code_bug evidence): with `iterations = -1`, a 10-entry
dataset, world size 1 and a fresh start, `process_io` derives exactly
one epoch, and `run` plans one epoch — but executes zero loop
iterations, because `self.iterations` is left at `-1` and
`n_iterations = min(-1 - 0*10, 10)` is negative, so `range` of it is
empty.  The claim (and the docstring `-1: whole dataset once`) ask for
one full epoch of `10 / 1 = 10` iterations. -/
theorem run_negative_iterations_zero_steps :
    epochsFromIterations (-1) 10 1 = 1 ∧
    runNumEpochs (epochsFromIterations (-1) 10 1) 0 10 1 = 1 ∧
    runTotalSteps (-1) (epochsFromIterations (-1) 10 1) 10 1 0 = 0 := by
  have he : epochsFromIterations (-1) 10 1 = 1 := by
    norm_num [epochsFromIterations]
  have hn : runNumEpochs 1 0 10 1 = 1 := by
    norm_num [runNumEpochs, iter_per_epoch]
  have hs : runStepsInEpoch (-1) 10 0 = 0 := by decide
  refine ⟨he, by rw [he]; exact hn, ?_⟩
  rw [he]
  simp [runTotalSteps, hn, hs, List.range_succ, List.range_zero]

/-- **C8** (code_bug evidence): the construction-time exclusivity check
does fail when both `keep_output` and `ignore_keys` are given, but the
step-time filtering never produces the claimed retained mapping when a
key actually has to go: popping a key while iterating `result.items()`
makes the very next iterator advance raise `RuntimeError: dictionary
changed size during iteration` (and with numpy casting on, the cast
assignment would even re-insert the popped key), so the step crashes
instead of returning the filtered result. -/
theorem step_output_filter_bug :
    process_model_output_keys (some ["loss"]) (some ["acc"]) =
      .error "Should not specify keep_output and ignore_keys together." ∧
    stepFilter (some ["loss"]) none false
      [some ("loss", .scalar 1), some ("aux", .scalar 2)] 10 =
      .error (.runtimeError "dictionary changed size during iteration") :=
  ⟨rfl, rfl⟩

/-- **C9**: with numpy casting enabled, the output normalizer rejects an
empty Python list with the fatal `Cannot cast output` ValueError — the
list branch demands a non-empty list headed by a TensorBatch — while a
non-empty list of TensorBatch containers is normalized to a list of
arrays. -/
theorem cast_output_empty_list :
    castOutput "clusts" (.pyList []) =
      .error (.valueError "Cannot cast output clusts to numpy") ∧
    castOutput "clusts" (.pyList [.tensorBatch [1, 2]]) =
      .ok (.pyList [.npArray [1, 2]]) :=
  ⟨rfl, rfl⟩

theorem pymod_neg_one (x : Int) : pymod x (-1) = 0 := by
  unfold pymod
  have h : ((x : Rat)) / (((-1 : Int) : Rat)) = (((-x : Int) : Rat)) := by
    push_cast
    ring
  rw [h, Int.floor_intCast]
  ring

/-- **C10**: with the default checkpoint cadence `-1`, the Python test
`((iteration + 1) % -1) == 0` is true at every iteration (any integer
modulo `-1` is zero under floored division), so in train mode the
coordinating process saves a checkpoint on every single iteration
rather than never. -/
theorem save_step_negative_cadence (iteration : Nat) :
    save_step (-1) iteration = true ∧
    savesCheckpoint true true (-1) iteration = true := by
  have h : save_step (-1) iteration = true := by
    simp [save_step, pymod_neg_one]
  exact ⟨h, by simp [savesCheckpoint, h]⟩

/-! ### Claim C4 -/

/-- **C4**: the distributed merge rule is decided only by the first
gathered value's runtime shape and the key name: a scalar merges by
arithmetic mean, except that a key containing the substring `count`
merges by sum; an array merges by concatenation along the first axis; a
list merges by extension in process-rank order.  In particular the
scalars `[1,2,3,4]` merge to `5/2` under the key `loss` and to `10`
under `sample_count`, and the per-rank arrays `[[1],[2],[3]]` merge to
`[1,2,3]`. -/
theorem write_merge_rule :
    (∀ (k : String) (ss : List Rat), ss ≠ [] →
        mergeGathered k (ss.map GVal.scalar) =
          some (.scalar (if strContains k "count" then ss.sum
                         else ss.sum / (ss.length : Rat)))) ∧
    (∀ (k : String) (xss : List (List Rat)), xss ≠ [] →
        mergeGathered k (xss.map GVal.arr) = some (.arr xss.flatten)) ∧
    (∀ (k : String) (xss : List (List Rat)), xss ≠ [] →
        mergeGathered k (xss.map GVal.pylist) =
          some (.pylist xss.flatten)) ∧
    mergeGathered "loss" [.scalar 1, .scalar 2, .scalar 3, .scalar 4] =
      some (.scalar (5/2)) ∧
    mergeGathered "sample_count"
        [.scalar 1, .scalar 2, .scalar 3, .scalar 4] =
      some (.scalar 10) ∧
    mergeGathered "x" [.arr [1], .arr [2], .arr [3]] =
      some (.arr [1, 2, 3]) := by
  have hscalar : ∀ (k : String) (ss : List Rat), ss ≠ [] →
      mergeGathered k (ss.map GVal.scalar) =
        some (.scalar (if strContains k "count" then ss.sum
                       else ss.sum / (ss.length : Rat))) := by
    intro k ss h
    obtain ⟨a, t, rfl⟩ := List.exists_cons_of_ne_nil h
    simp [mergeGathered, scalarOf, List.map_map, Function.comp_def]
  have hloss : strContains "loss" "count" = false := by decide
  have hcount : strContains "sample_count" "count" = true := by decide
  refine ⟨hscalar, ?_, ?_, ?_, ?_, rfl⟩
  · intro k xss h
    obtain ⟨a, t, rfl⟩ := List.exists_cons_of_ne_nil h
    simp [mergeGathered, arrOf, List.map_map, Function.comp_def]
  · intro k xss h
    obtain ⟨a, t, rfl⟩ := List.exists_cons_of_ne_nil h
    simp [mergeGathered, pylistOf, List.map_map, Function.comp_def]
  · have h := hscalar "loss" [1, 2, 3, 4] (by decide)
    rw [List.map_cons, List.map_cons, List.map_cons, List.map_cons,
        List.map_nil] at h
    rw [h, hloss]
    norm_num
  · have h := hscalar "sample_count" [1, 2, 3, 4] (by decide)
    rw [List.map_cons, List.map_cons, List.map_cons, List.map_cons,
        List.map_nil] at h
    rw [h, hcount]
    norm_num

/-- Concrete instance of the scalar-mean branch of `write_merge_rule`:
two ranks reporting `2` and `4` under a non-count key merge to `3`. -/
theorem write_merge_rule_witness :
    mergeGathered "epoch" [GVal.scalar 2, GVal.scalar 4] =
      some (GVal.scalar 3) := by
  have hc : strContains "epoch" "count" = false := by decide
  have h := write_merge_rule.1 "epoch" [2, 4] (by decide)
  rw [List.map_cons, List.map_cons, List.map_nil] at h
  rw [h, hc]
  norm_num

/-! ### Helper lemmas about state dictionaries -/

theorem containsKey_of_mem_keys {m : StateDict} {n : String}
    (h : n ∈ m.map Prod.fst) : containsKey m n = true := by
  obtain ⟨p, hp, rfl⟩ := List.mem_map.mp h
  have hs : (m.find? (fun q => q.1 == p.1)).isSome = true :=
    List.find?_isSome.mpr ⟨p, hp, by simp⟩
  rcases hf : m.find? (fun q => q.1 == p.1) with _ | q
  · rw [hf] at hs; simp at hs
  · simp [containsKey, lookupSD, hf]

theorem lookupSD_load_state_dict (m sd : StateDict) (n : String) :
    lookupSD (load_state_dict m sd) n =
      (m.find? (fun p => p.1 == n)).map
        (fun p => (lookupSD sd p.1).getD p.2) := by
  induction m with
  | nil => rfl
  | cons p rest ih =>
      by_cases h : (p.1 == n) = true
      · simp [load_state_dict, lookupSD, h]
      · have hb : (p.1 == n) = false := by simpa using h
        simp [load_state_dict, lookupSD, hb] at ih ⊢
        exact ih

theorem lookupSD_load_self (m : StateDict) (n : String) :
    lookupSD (load_state_dict m m) n = lookupSD m n := by
  rw [lookupSD_load_state_dict]
  rcases hf : m.find? (fun p => p.1 == n) with _ | p
  · simp [lookupSD, hf]
  · have hn : lookupSD m n = some p.2 := by simp [lookupSD, hf]
    have hp1 : p.1 = n := by
      have h2 := List.find?_some hf
      simpa [beq_iff_eq] using h2
    rw [hf]
    show some ((lookupSD m p.1).getD p.2) = lookupSD m n
    rw [hp1, hn]
    rfl

/-! ### Claims C3 and C5 -/

/-- **C3**: whenever the (possibly remapped) stored keys do not cover
every parameter name required by the live schema, loading fails with the
aggregated manifest — which holds a pair for EVERY required name whose
remapped key the checkpoint lacks, not only the first — and atomically:
the returned live state (model parameters, iteration counter, optimizer
state) is exactly the input state and no `load_state_dict` ran. -/
theorem load_weights_missing_keys_atomic
    (modelTopName : String) (distributed train restore_optimizer : Bool)
    (modName storeName : String) (ckpt : Checkpoint) (st : LoadState)
    (hmiss : missingManifest (modName == modelTopName) modName storeName
        (st.model.map Prod.fst)
        (loadCoverage (modName == modelTopName) distributed ckpt) ≠ []) :
    load_weights_file modelTopName distributed train restore_optimizer
        modName storeName ckpt st =
      { state := st, unexpected := [],
        error := some (.missingParams (missingManifest
            (modName == modelTopName) modName storeName
            (st.model.map Prod.fst)
            (loadCoverage (modName == modelTopName) distributed ckpt))) } ∧
    ∀ n key : String,
      (n, key) ∈ missingManifest (modName == modelTopName) modName storeName
          (st.model.map Prod.fst)
          (loadCoverage (modName == modelTopName) distributed ckpt) ↔
        n ∈ requiredNames (modName == modelTopName) modName
            (st.model.map Prod.fst) ∧
        key = remapKey (modName == modelTopName) modName storeName n ∧
        containsKey (loadCoverage (modName == modelTopName) distributed ckpt)
          key = false := by
  constructor
  · have hempty : (missingManifest (modName == modelTopName) modName storeName
        (st.model.map Prod.fst)
        (loadCoverage (modName == modelTopName) distributed ckpt)).isEmpty
        = false := by
      simpa [List.isEmpty_eq_false] using hmiss
    simp [load_weights_file, hempty]
  · intro n key
    constructor
    · intro hmem
      obtain ⟨a, ha, hf⟩ := List.mem_filterMap.mp hmem
      cases hc : containsKey (loadCoverage (modName == modelTopName)
          distributed ckpt)
          (remapKey (modName == modelTopName) modName storeName a) with
      | true => simp [hc] at hf
      | false =>
          simp only [hc, Bool.false_eq_true, if_false,
            Option.some.injEq, Prod.mk.injEq] at hf
          obtain ⟨rfl, rfl⟩ := hf
          exact ⟨ha, rfl, hc⟩
    · rintro ⟨hn, rfl, hc⟩
      exact List.mem_filterMap.mpr ⟨n, hn, by simp [hc]⟩

/-- Concrete instance of `load_weights_missing_keys_atomic`: a schema
requiring `a`, `b` and `c` against a checkpoint providing only `a` and
`b` fails with the manifest `[(c, c)]` and leaves the live state (`a=1`,
`b=2`, `c=3`, iteration `0`, optimizer `5`) untouched. -/
theorem load_weights_missing_keys_atomic_witness :
    load_weights_file "model" true true false "model" "model"
        ⟨7, [("a", 10), ("b", 20)], 0⟩ ⟨[("a", 1), ("b", 2), ("c", 3)], 0, 5⟩ =
      { state := ⟨[("a", 1), ("b", 2), ("c", 3)], 0, 5⟩, unexpected := [],
        error := some (.missingParams [("c", "c")]) } := by
  have h := load_weights_missing_keys_atomic "model" true true false
      "model" "model" ⟨7, [("a", 10), ("b", 20)], 0⟩
      ⟨[("a", 1), ("b", 2), ("c", 3)], 0, 5⟩ (by decide)
  have hm : missingManifest (("model" : String) == "model") "model" "model"
      (([("a", (1 : Int)), ("b", 2), ("c", 3)] : StateDict).map Prod.fst)
      (loadCoverage (("model" : String) == "model") true
        ⟨7, [("a", 10), ("b", 20)], 0⟩) = [("c", "c")] := by decide
  exact h.1.trans (by rw [hm])

/-- **C5**: saving a checkpoint at iteration `k` and loading it back for
the top-level model succeeds, restores a state dictionary element-wise
equal to the one at save time, and sets `start_iteration` to `k + 1`;
loading any checkpoint for a sub-module (a module name different from
the top-level model name) leaves `start_iteration` unchanged.  The
hypothesis records that the distributed-wrapper strip is the identity on
the saved names (trivially so when `distributed = true`, and whenever no
parameter name contains the substring `module.`). -/
theorem checkpoint_round_trip (modelTopName : String)
    (distributed train restore_optimizer : Bool) (k : Nat) (st : LoadState)
    (hstrip : stripDDP distributed st.model = st.model) :
    (load_weights_file modelTopName distributed train restore_optimizer
        modelTopName modelTopName (save_state k st) st).error = none ∧
    (∀ n, lookupSD (load_weights_file modelTopName distributed train
        restore_optimizer modelTopName modelTopName
        (save_state k st) st).state.model n = lookupSD st.model n) ∧
    (load_weights_file modelTopName distributed train restore_optimizer
        modelTopName modelTopName (save_state k st) st).state.start_iteration
      = k + 1 ∧
    ∀ (modName storeName : String) (ckpt : Checkpoint),
      modName ≠ modelTopName →
      (load_weights_file modelTopName distributed train restore_optimizer
          modName storeName ckpt st).state.start_iteration =
        st.start_iteration := by
  have htop : (modelTopName == modelTopName) = true := beq_self_eq_true _
  have hmiss : missingManifest true modelTopName modelTopName
      (st.model.map Prod.fst) st.model = [] := by
    apply List.filterMap_eq_nil_iff.mpr
    intro n hn
    have hck := containsKey_of_mem_keys hn
    simp [remapKey, hck]
  refine ⟨?_, ?_, ?_, ?_⟩
  · simp [load_weights_file, htop, save_state, loadCoverage, hstrip, hmiss]
  · intro n
    simp [load_weights_file, htop, save_state, loadCoverage, hstrip, hmiss,
      lookupSD_load_self]
  · simp [load_weights_file, htop, save_state, loadCoverage, hstrip, hmiss]
  · intro modName storeName ckpt hne
    have hb : (modName == modelTopName) = false := by simpa using hne
    simp only [load_weights_file, hb, Bool.false_eq_true, if_false]
    split <;> rfl

/-- Concrete instance of `checkpoint_round_trip`: saving the state
`a=1, b=2` at iteration `5` and reloading restores both parameters and
yields `start_iteration = 5 + 1`, while loading a sub-module checkpoint
leaves the counter at `0`. -/
theorem checkpoint_round_trip_witness :
    (load_weights_file "model" true true false "model" "model"
        (save_state 5 ⟨[("a", 1), ("b", 2)], 0, 9⟩)
        ⟨[("a", 1), ("b", 2)], 0, 9⟩).state.start_iteration = 5 + 1 ∧
    lookupSD (load_weights_file "model" true true false "model" "model"
        (save_state 5 ⟨[("a", 1), ("b", 2)], 0, 9⟩)
        ⟨[("a", 1), ("b", 2)], 0, 9⟩).state.model "a" =
      lookupSD [("a", 1), ("b", 2)] "a" ∧
    (load_weights_file "model" true true false "sub" "enc"
        ⟨33, [], 4⟩ ⟨[("a", 1), ("b", 2)], 0, 9⟩).state.start_iteration = 0 := by
  have h := checkpoint_round_trip "model" true true false 5
      ⟨[("a", 1), ("b", 2)], 0, 9⟩ rfl
  exact ⟨h.2.2.1, h.2.1 "a", h.2.2.2 "sub" "enc" ⟨33, [], 4⟩ (by decide)⟩
